import Mathlib

/-!
Shallow embedding of the badgr-server fragment under verification:
`apps/issuer/serializers_v2.py` (serializer validate/create/update logic for
Issuer, BadgeClass and BadgeInstance) and the data migration
`apps/mainsite/migrations/0018_auto_20190201_1745.py`.

Dictionaries of validated data are embedded as structures whose optional
entries are `Option` fields; a raised `serializers.ValidationError` or
`KeyError` is embedded as the `.error` branch of an `Except`.
-/

namespace Badgr

/-- Modelled from the spec: the recipient identity types declared on
`issuer.models.BadgeInstance` (`RECIPIENT_TYPE_CHOICES`, a module that is not in
the provided sources); the spec lists exactly the four types
email / url / id / telephone. -/
inductive RecipientType
  | email
  | url
  | id
  | telephone
deriving DecidableEq, Repr

/-- Errors a serializer method can raise: a `serializers.ValidationError` keyed by a
field name with a message, or a bare Python `KeyError` on a missing dict key. -/
inductive SerializerError
  | validationError (field : String) (msg : String)
  | keyError (key : String)
deriving DecidableEq, Repr

/-- The three underlying format validators used by `BadgeRecipientSerializerV2.VALIDATORS`
(`EmailValidator`, `URLValidator` from the web framework, `TelephoneValidator` from
`mainsite.validators`). Each is abstracted as a function returning `some msg` when the
input fails the format check with message `msg`, and `none` when it passes. -/
structure FormatValidators where
  email : String → Option String
  url : String → Option String
  telephone : String → Option String

/-- The attrs dict reaching `BadgeRecipientSerializerV2.validate`:
`recipient_identifier` (source of the required `identity` field) and the optional
`recipient_type`. -/
structure RecipientAttrs where
  recipient_type : Option RecipientType
  recipient_identifier : String
deriving DecidableEq, Repr

/-- `BadgeRecipientSerializerV2.VALIDATORS`: the dict keying a format validator by
recipient type (email ↦ EmailValidator, url ↦ URLValidator, id ↦ URLValidator,
telephone ↦ TelephoneValidator). -/
def VALIDATORS (V : FormatValidators) : RecipientType → (String → Option String)
  | .email => V.email
  | .url => V.url
  | .id => V.url
  | .telephone => V.telephone

/-- `BadgeRecipientSerializerV2.validate`: looks up the recipient type in `VALIDATORS`;
if present, runs that validator on the recipient identifier and re-raises any
format violation as a `serializers.ValidationError` carrying the underlying message
(`e.message`); otherwise returns `attrs` unchanged. -/
def BadgeRecipientSerializerV2.validate (V : FormatValidators) (attrs : RecipientAttrs) :
    Except String RecipientAttrs :=
  match attrs.recipient_type with
  | some t =>
    match VALIDATORS V t attrs.recipient_identifier with
    | some msg => .error msg
    | none => .ok attrs
  | none => .ok attrs

/-- The incoming recipient payload before field processing: required `identity`,
optional `type`. -/
structure RecipientPayload where
  identity : String
  type : Option RecipientType
deriving DecidableEq, Repr

/-- Modelled from the spec: the serialization framework's field processing for
`BadgeRecipientSerializerV2` (the framework itself is outside the provided sources).
The `type` field is declared `required=False` with
`default=BadgeInstance.RECIPIENT_TYPE_EMAIL`, so an omitted type is filled with the
email type before `validate` runs; `identity` maps to source `recipient_identifier`. -/
def BadgeRecipientSerializerV2.to_internal_value (p : RecipientPayload) : RecipientAttrs :=
  { recipient_type := some (p.type.getD RecipientType.email)
    recipient_identifier := p.identity }

/-- Field processing followed by `BadgeRecipientSerializerV2.validate`. -/
def BadgeRecipientSerializerV2.run_validation (V : FormatValidators) (p : RecipientPayload) :
    Except String RecipientAttrs :=
  BadgeRecipientSerializerV2.validate V (BadgeRecipientSerializerV2.to_internal_value p)

/-- Python truthiness of an optional string value: `None` and the empty string are
falsy, every other string is truthy. -/
def truthy : Option String → Bool
  | none => false
  | some s => !(s == "")

/-- The attrs dict reaching `EvidenceItemSerializerV2.validate`: optional
`evidence_url` (source of `url`) and optional `narrative`. -/
structure EvidenceAttrs where
  evidence_url : Option String
  narrative : Option String
deriving DecidableEq, Repr

/-- `EvidenceItemSerializerV2.validate`: raises unless at least one of
`evidence_url`, `narrative` is truthy; otherwise returns `attrs` unchanged. -/
def EvidenceItemSerializerV2.validate (attrs : EvidenceAttrs) : Except String EvidenceAttrs :=
  if truthy attrs.evidence_url || truthy attrs.narrative then .ok attrs
  else .error "Either url or narrative is required"

/-- An uploaded file as the serializer sees it: an object with a mutable `name`. -/
structure UploadedImage where
  name : String
deriving DecidableEq, Repr

/-- Splits a character list at its last dot, returning the part before the dot and
the part from the dot on; `none` when there is no dot. -/
def lastDotSplit : List Char → Option (List Char × List Char)
  | [] => none
  | c :: rest =>
    match lastDotSplit rest with
    | some (pre, post) => some (c :: pre, post)
    | none => if c = '.' then some ([], c :: rest) else none

/-- Python's `os.path.splitext` for a plain (separator-free) file name: the extension
begins at the last dot, unless every character before that dot is itself a dot
(so `".png"` has no extension). -/
def splitext (p : String) : String × String :=
  match lastDotSplit p.toList with
  | none => (p, "")
  | some (pre, post) =>
    if pre.any (fun c => c ≠ '.') then (String.mk pre, String.mk post) else (p, "")

/-- `IssuerSerializerV2.validate_image`: when the image is not `None`, splits its name
into root and extension and renames it to `issuer_logo_<uuid4><ext>`. The fresh
`uuid.uuid4()` string is passed in as `freshUuid`. -/
def IssuerSerializerV2.validate_image (freshUuid : String) (image : Option UploadedImage) :
    Option UploadedImage :=
  match image with
  | none => none
  | some img =>
    let ext := (splitext img.name).2
    some { img with name := "issuer_logo_" ++ freshUuid ++ ext }

/-- A staff entry: a user reference (by entity id) and a role string. -/
structure StaffItem where
  user : Nat
  role : String
deriving DecidableEq, Repr

/-- The Issuer record as created by the serializer. -/
structure IssuerRecord where
  name : String
  image : Option UploadedImage
  email : String
  url : String
  description : String
  staff_items : List StaffItem
deriving DecidableEq, Repr

/-- The validated_data dict reaching `IssuerSerializerV2.create`: `staff` is declared
`required=False` (source `staff_items`), so its entry may be absent; the remaining
writable fields are required. -/
structure IssuerValidatedData where
  name : String
  image : Option UploadedImage
  email : String
  url : String
  description : String
  staff_items : Option (List StaffItem)
deriving DecidableEq, Repr

/-- `IssuerSerializerV2.create`: `validated_data.pop('staff_items')` with no default
raises `KeyError` when the key is absent; otherwise the issuer is created from the
remaining fields and its staff list is then assigned from the popped value
(`DetailSerializerV2.create`, outside the provided sources, persists the validated
fields; modelled from the spec's creation contract). -/
def IssuerSerializerV2.create (vd : IssuerValidatedData) :
    Except SerializerError IssuerRecord :=
  match vd.staff_items with
  | none => .error (.keyError "staff_items")
  | some staff =>
    .ok { name := vd.name, image := vd.image, email := vd.email, url := vd.url,
          description := vd.description, staff_items := staff }

/-- The BadgeClass record: owning issuer reference (by entity id) plus the writable
fields of `BadgeClassSerializerV2`. -/
structure BadgeClassRecord where
  issuer : Nat
  name : String
  description : String
  image : Option UploadedImage
  criteria_url : Option String
  criteria_text : Option String
  tag_items : List String
deriving DecidableEq, Repr

/-- The validated_data dict reaching `BadgeClassSerializerV2.create`: the `issuer`
field is `required=False` with source `cached_issuer`, so its entry may be absent. -/
structure BadgeClassValidatedData where
  cached_issuer : Option Nat
  name : String
  description : String
  image : Option UploadedImage
  criteria_url : Option String
  criteria_text : Option String
  tag_items : List String
deriving DecidableEq, Repr

/-- The serializer context dict, which may carry an `issuer` entry. -/
structure BadgeClassContext where
  issuer : Option Nat
deriving DecidableEq, Repr

/-- Modelled from the spec: `DetailSerializerV2.create` (entity/serializers.py, not in
the provided sources) persists a new record carrying exactly the validated fields;
per the spec, creation with an issuer present "succeeds and records that issuer". -/
def DetailSerializerV2.createBadgeClass (issuer : Nat) (vd : BadgeClassValidatedData) :
    BadgeClassRecord :=
  { issuer := issuer, name := vd.name, description := vd.description, image := vd.image,
    criteria_url := vd.criteria_url, criteria_text := vd.criteria_text,
    tag_items := vd.tag_items }

/-- `BadgeClassSerializerV2.create`: if `cached_issuer` is in validated_data it becomes
the issuer; otherwise if `issuer` is in the context it is used; otherwise a
`ValidationError` keyed by `issuer` is raised. -/
def BadgeClassSerializerV2.create (ctx : BadgeClassContext) (vd : BadgeClassValidatedData) :
    Except SerializerError BadgeClassRecord :=
  match vd.cached_issuer with
  | some iss => .ok (DetailSerializerV2.createBadgeClass iss vd)
  | none =>
    match ctx.issuer with
    | some iss => .ok (DetailSerializerV2.createBadgeClass iss vd)
    | none => .error (.validationError "issuer" "This field is required")

/-- The validated_data dict reaching `BadgeClassSerializerV2.update`: every writable
field's entry may be absent (`some v` means the key is present with value `v`). -/
structure BadgeClassUpdateData where
  cached_issuer : Option Nat
  name : Option String
  description : Option String
  image : Option (Option UploadedImage)
  criteria_url : Option (Option String)
  criteria_text : Option (Option String)
  tag_items : Option (List String)
deriving DecidableEq, Repr

/-- Modelled from the spec: `DetailSerializerV2.update` (entity/serializers.py, not in
the provided sources) writes each field present in validated_data onto the instance
and leaves the remaining fields unchanged, then saves. -/
def DetailSerializerV2.updateBadgeClass (inst : BadgeClassRecord) (vd : BadgeClassUpdateData) :
    BadgeClassRecord :=
  { issuer := vd.cached_issuer.getD inst.issuer,
    name := vd.name.getD inst.name,
    description := vd.description.getD inst.description,
    image := vd.image.getD inst.image,
    criteria_url := vd.criteria_url.getD inst.criteria_url,
    criteria_text := vd.criteria_text.getD inst.criteria_text,
    tag_items := vd.tag_items.getD inst.tag_items }

/-- `BadgeClassSerializerV2.update`: pops `cached_issuer` from validated_data when
present (issuer is not updatable) and delegates the rest to the parent update. -/
def BadgeClassSerializerV2.update (inst : BadgeClassRecord) (vd : BadgeClassUpdateData) :
    BadgeClassRecord :=
  DetailSerializerV2.updateBadgeClass inst { vd with cached_issuer := none }

/-- The BadgeInstance record: references its BadgeClass and stores its issuer,
recipient identity, issuance data, evidence and revocation state. -/
structure BadgeInstance where
  badgeclass : BadgeClassRecord
  issuer : Nat
  recipient_identifier : String
  recipient_type : RecipientType
  issued_on : Option Nat
  narrative : Option String
  evidence : List EvidenceAttrs
  revoked : Bool
  revocation_reason : Option String
deriving DecidableEq, Repr

/-- The validated_data dict reaching `BadgeInstanceSerializerV2.create`: the
`badgeclass` field is `required=False` with source `cached_badgeclass`, so its
entry may be absent; the recipient fields come from the nested recipient
serializer and the remaining writable fields are optional. -/
structure BadgeInstanceValidatedData where
  cached_badgeclass : Option BadgeClassRecord
  recipient_identifier : String
  recipient_type : RecipientType
  issued_on : Option Nat
  narrative : Option String
  evidence : List EvidenceAttrs
deriving DecidableEq, Repr

/-- The serializer context dict, which may carry a `badgeclass` entry. -/
structure BadgeInstanceContext where
  badgeclass : Option BadgeClassRecord
deriving DecidableEq, Repr

/-- Modelled from the spec: `DetailSerializerV2.create` (entity/serializers.py, not in
the provided sources) persists a new record carrying exactly the validated fields;
the read-only revocation fields take their model defaults (not revoked). -/
def DetailSerializerV2.createBadgeInstance (badgeclass : BadgeClassRecord) (issuer : Nat)
    (vd : BadgeInstanceValidatedData) : BadgeInstance :=
  { badgeclass := badgeclass, issuer := issuer,
    recipient_identifier := vd.recipient_identifier, recipient_type := vd.recipient_type,
    issued_on := vd.issued_on, narrative := vd.narrative, evidence := vd.evidence,
    revoked := false, revocation_reason := none }

/-- `BadgeInstanceSerializerV2.create`: if `cached_badgeclass` is in validated_data it
becomes the badgeclass; otherwise if `badgeclass` is in the context it is used;
otherwise a `ValidationError` keyed by `badgeclass` is raised. In the success cases
`validated_data['issuer'] = validated_data['badgeclass'].issuer` stores the resolved
badgeclass's issuer on the instance. -/
def BadgeInstanceSerializerV2.create (ctx : BadgeInstanceContext)
    (vd : BadgeInstanceValidatedData) : Except SerializerError BadgeInstance :=
  match vd.cached_badgeclass with
  | some bc => .ok (DetailSerializerV2.createBadgeInstance bc bc.issuer vd)
  | none =>
    match ctx.badgeclass with
    | some bc => .ok (DetailSerializerV2.createBadgeInstance bc bc.issuer vd)
    | none => .error (.validationError "badgeclass" "This field is required")

/-- The validated_data dict reaching `BadgeInstanceSerializerV2.update`: every
writable field's entry may be absent (`some v` means the key is present). -/
structure BadgeInstanceUpdateData where
  cached_badgeclass : Option BadgeClassRecord
  recipient_identifier : Option String
  recipient_type : Option RecipientType
  issued_on : Option (Option Nat)
  narrative : Option (Option String)
  evidence : Option (List EvidenceAttrs)
deriving DecidableEq, Repr

/-- `BadgeInstanceSerializerV2.update`: BadgeInstances are not updatable; the
instance is returned unchanged, the validated data is ignored. -/
def BadgeInstanceSerializerV2.update (inst : BadgeInstance)
    (_validated_data : BadgeInstanceUpdateData) : BadgeInstance :=
  inst

/-- An ApplicationInfo row: the `manifest_domain` column the migration rewrites, and
the row's remaining columns kept abstractly as name/value pairs. -/
structure ApplicationInfo where
  manifest_domain : String
  otherFields : List (String × String)
deriving DecidableEq, Repr

/-- `run_data` of migration mainsite/0018: iterates over all ApplicationInfo rows and
assigns each a freshly generated domain, saving the row. The generator
`generate_random_fake_badge_connect_domain` (mainsite/utils.py, not in the provided
sources) is modelled from the spec: a random placeholder domain value, fresh per
call, abstracted as an oracle `gen` indexed by the call number `k`. -/
def run_data (gen : Nat → String) : Nat → List ApplicationInfo → List ApplicationInfo
  | _, [] => []
  | k, row :: rest => { row with manifest_domain := gen k } :: run_data gen (k + 1) rest

/-- `migrations.RunPython.noop`, the migration's `reverse_code`: does nothing to the
rows. -/
def RunPython.noop (rows : List ApplicationInfo) : List ApplicationInfo := rows

/-- Concrete format validators used to evaluate the recipient-validation theorems on
concrete inputs: each accepts exactly one well-formed sample identifier. -/
def demoValidators : FormatValidators where
  email := fun s =>
    if s = "recipient@example.com" then none else some "Enter a valid email address."
  url := fun s =>
    if s = "http://example.com/x" then none else some "Enter a valid URL."
  telephone := fun s =>
    if s = "+15035551234" then none else some "Telephone number does not match expected format."

/-- A concrete BadgeClass record used to evaluate the creation theorems. -/
def demoBadgeClass : BadgeClassRecord :=
  { issuer := 9, name := "bc", description := "d", image := none,
    criteria_url := none, criteria_text := none, tag_items := [] }

/-- A concrete BadgeClass creation payload with no issuer entry. -/
def demoBadgeClassVD : BadgeClassValidatedData :=
  { cached_issuer := none, name := "n", description := "d", image := none,
    criteria_url := none, criteria_text := none, tag_items := [] }

/-- A concrete BadgeInstance creation payload carrying `demoBadgeClass`. -/
def demoBadgeInstanceVD : BadgeInstanceValidatedData :=
  { cached_badgeclass := some demoBadgeClass,
    recipient_identifier := "recipient@example.com",
    recipient_type := RecipientType.email, issued_on := none, narrative := none,
    evidence := [] }

theorem truthy_eq_false_iff (o : Option String) :
    truthy o = false ↔ (o = none ∨ o = some "") := by
  cases o with
  | none => simp [truthy]
  | some s => simp [truthy]

theorem recipient_validate_error_iff (V : FormatValidators) (attrs : RecipientAttrs)
    (t : RecipientType) (h : attrs.recipient_type = some t) (msg : String) :
    BadgeRecipientSerializerV2.validate V attrs = .error msg ↔
      VALIDATORS V t attrs.recipient_identifier = some msg := by
  unfold BadgeRecipientSerializerV2.validate
  rw [h]
  rcases hV : VALIDATORS V t attrs.recipient_identifier with _ | m <;> simp [hV]

theorem recipient_validate_ok_iff (V : FormatValidators) (attrs : RecipientAttrs)
    (t : RecipientType) (h : attrs.recipient_type = some t) :
    BadgeRecipientSerializerV2.validate V attrs = .ok attrs ↔
      VALIDATORS V t attrs.recipient_identifier = none := by
  unfold BadgeRecipientSerializerV2.validate
  rw [h]
  rcases hV : VALIDATORS V t attrs.recipient_identifier with _ | m <;> simp [hV]

theorem run_data_map_otherFields (gen : Nat → String) (k : Nat)
    (rows : List ApplicationInfo) :
    (run_data gen k rows).map ApplicationInfo.otherFields =
      rows.map ApplicationInfo.otherFields := by
  induction rows generalizing k with
  | nil => rfl
  | cons r rest ih => simp [run_data, ih]

theorem run_data_map_manifest_domain (gen : Nat → String) (k : Nat)
    (rows : List ApplicationInfo) :
    (run_data gen k rows).map ApplicationInfo.manifest_domain =
      (List.range' k rows.length).map gen := by
  induction rows generalizing k with
  | nil => rfl
  | cons r rest ih => simp [run_data, List.range'_succ, ih]

/-- C1: for every BadgeInstance and every validated update payload,
`BadgeInstanceSerializerV2.update` returns the instance with all of its original
field values intact; no field of the instance is changed regardless of what changes
are submitted. -/
theorem C1_badgeinstance_update_is_noop (inst : BadgeInstance)
    (vd : BadgeInstanceUpdateData) :
    BadgeInstanceSerializerV2.update inst vd = inst ∧
    (BadgeInstanceSerializerV2.update inst vd).badgeclass = inst.badgeclass ∧
    (BadgeInstanceSerializerV2.update inst vd).issuer = inst.issuer ∧
    (BadgeInstanceSerializerV2.update inst vd).recipient_identifier =
      inst.recipient_identifier ∧
    (BadgeInstanceSerializerV2.update inst vd).recipient_type = inst.recipient_type ∧
    (BadgeInstanceSerializerV2.update inst vd).issued_on = inst.issued_on ∧
    (BadgeInstanceSerializerV2.update inst vd).narrative = inst.narrative ∧
    (BadgeInstanceSerializerV2.update inst vd).evidence = inst.evidence ∧
    (BadgeInstanceSerializerV2.update inst vd).revoked = inst.revoked ∧
    (BadgeInstanceSerializerV2.update inst vd).revocation_reason = inst.revocation_reason :=
  ⟨rfl, rfl, rfl, rfl, rfl, rfl, rfl, rfl, rfl, rfl⟩

/-- C2: for every recipient attrs dict with a recipient type among email, url, id,
telephone, `BadgeRecipientSerializerV2.validate` applies the format validator keyed
by that type (email format for email, URL format for both url and id, telephone
format for telephone) and raises a validation error carrying the underlying format
violation message exactly when the identifier fails that validator; otherwise it
returns attrs unchanged. -/
theorem C2_recipient_validate_dispatch (V : FormatValidators) (attrs : RecipientAttrs)
    (t : RecipientType) (h : attrs.recipient_type = some t) :
    (VALIDATORS V .email = V.email ∧ VALIDATORS V .url = V.url ∧
      VALIDATORS V .id = V.url ∧ VALIDATORS V .telephone = V.telephone) ∧
    (∀ msg, BadgeRecipientSerializerV2.validate V attrs = .error msg ↔
      VALIDATORS V t attrs.recipient_identifier = some msg) ∧
    (BadgeRecipientSerializerV2.validate V attrs = .ok attrs ↔
      VALIDATORS V t attrs.recipient_identifier = none) :=
  ⟨⟨rfl, rfl, rfl, rfl⟩,
    fun msg => recipient_validate_error_iff V attrs t h msg,
    recipient_validate_ok_iff V attrs t h⟩

/-- Witness for C2: a concrete identifier that fails the email validator is rejected
with the validator's message. -/
theorem C2_recipient_validate_dispatch_witness :
    BadgeRecipientSerializerV2.validate demoValidators
      { recipient_type := some RecipientType.email, recipient_identifier := "not-an-email" } =
      Except.error "Enter a valid email address." :=
  ((C2_recipient_validate_dispatch demoValidators
      { recipient_type := some RecipientType.email, recipient_identifier := "not-an-email" }
      RecipientType.email rfl).2.1 "Enter a valid email address.").mpr (by decide)

/-- C3: `BadgeClassSerializerV2.create` resolves the owning Issuer with priority
payload-supplied reference, then serializer context; it raises a validation error
keyed by "issuer" exactly when neither is present, and if either is present the
created BadgeClass records that issuer. -/
theorem C3_badgeclass_create_issuer_resolution (ctx : BadgeClassContext)
    (vd : BadgeClassValidatedData) :
    (BadgeClassSerializerV2.create ctx vd =
        .error (.validationError "issuer" "This field is required") ↔
      vd.cached_issuer = none ∧ ctx.issuer = none) ∧
    (∀ iss, vd.cached_issuer = some iss →
      ∃ bc, BadgeClassSerializerV2.create ctx vd = .ok bc ∧ bc.issuer = iss) ∧
    (∀ iss, vd.cached_issuer = none → ctx.issuer = some iss →
      ∃ bc, BadgeClassSerializerV2.create ctx vd = .ok bc ∧ bc.issuer = iss) := by
  rcases hvi : vd.cached_issuer with _ | ia <;> rcases hci : ctx.issuer with _ | ib <;>
    simp [BadgeClassSerializerV2.create, hvi, hci, DetailSerializerV2.createBadgeClass]

/-- Witness for C3: with no payload issuer and issuer 7 in context, creation succeeds
and records issuer 7. -/
theorem C3_badgeclass_create_issuer_resolution_witness :
    ∃ bc, BadgeClassSerializerV2.create { issuer := some 7 } demoBadgeClassVD = .ok bc ∧
      bc.issuer = 7 :=
  (C3_badgeclass_create_issuer_resolution { issuer := some 7 } demoBadgeClassVD).2.2 7 rfl rfl

/-- C4: `BadgeInstanceSerializerV2.create` resolves the BadgeClass with priority
payload-supplied reference, then serializer context; it raises a validation error
keyed by "badgeclass" exactly when neither is present, and on success the stored
issuer of the BadgeInstance equals the issuer of the resolved BadgeClass. -/
theorem C4_badgeinstance_create_badgeclass_resolution (ctx : BadgeInstanceContext)
    (vd : BadgeInstanceValidatedData) :
    (BadgeInstanceSerializerV2.create ctx vd =
        .error (.validationError "badgeclass" "This field is required") ↔
      vd.cached_badgeclass = none ∧ ctx.badgeclass = none) ∧
    (∀ bc, vd.cached_badgeclass = some bc →
      ∃ inst, BadgeInstanceSerializerV2.create ctx vd = .ok inst ∧
        inst.badgeclass = bc ∧ inst.issuer = bc.issuer) ∧
    (∀ bc, vd.cached_badgeclass = none → ctx.badgeclass = some bc →
      ∃ inst, BadgeInstanceSerializerV2.create ctx vd = .ok inst ∧
        inst.badgeclass = bc ∧ inst.issuer = bc.issuer) := by
  rcases hvb : vd.cached_badgeclass with _ | ba <;> rcases hcb : ctx.badgeclass with _ | bb <;>
    simp [BadgeInstanceSerializerV2.create, hvb, hcb, DetailSerializerV2.createBadgeInstance]

/-- Witness for C4: with a payload badgeclass owned by issuer 9, creation succeeds and
the instance's issuer is 9. -/
theorem C4_badgeinstance_create_badgeclass_resolution_witness :
    ∃ inst, BadgeInstanceSerializerV2.create { badgeclass := none } demoBadgeInstanceVD =
        .ok inst ∧
      inst.badgeclass = demoBadgeClass ∧ inst.issuer = demoBadgeClass.issuer :=
  (C4_badgeinstance_create_badgeclass_resolution { badgeclass := none }
      demoBadgeInstanceVD).2.1 demoBadgeClass rfl

/-- C5: `EvidenceItemSerializerV2.validate` raises a validation error exactly when
both the url and the narrative are empty (missing, None, or empty string); if at
least one is non-empty it returns attrs unchanged. -/
theorem C5_evidence_requires_url_or_narrative (attrs : EvidenceAttrs) :
    (EvidenceItemSerializerV2.validate attrs =
        .error "Either url or narrative is required" ↔
      ((attrs.evidence_url = none ∨ attrs.evidence_url = some "") ∧
       (attrs.narrative = none ∨ attrs.narrative = some ""))) ∧
    (EvidenceItemSerializerV2.validate attrs = .ok attrs ↔
      ¬((attrs.evidence_url = none ∨ attrs.evidence_url = some "") ∧
        (attrs.narrative = none ∨ attrs.narrative = some ""))) := by
  have key : (truthy attrs.evidence_url || truthy attrs.narrative) = false ↔
      ((attrs.evidence_url = none ∨ attrs.evidence_url = some "") ∧
       (attrs.narrative = none ∨ attrs.narrative = some "")) := by
    rw [Bool.or_eq_false_iff, truthy_eq_false_iff, truthy_eq_false_iff]
  by_cases hb : (truthy attrs.evidence_url || truthy attrs.narrative) = true
  · have hne : ¬((attrs.evidence_url = none ∨ attrs.evidence_url = some "") ∧
        (attrs.narrative = none ∨ attrs.narrative = some "")) :=
      fun hc => by simp [key.mpr hc] at hb
    exact ⟨iff_of_false (by simp [EvidenceItemSerializerV2.validate, hb]) hne,
      iff_of_true (by simp [EvidenceItemSerializerV2.validate, hb]) hne⟩
  · have hb' : (truthy attrs.evidence_url || truthy attrs.narrative) = false := by
      simpa using hb
    have he := key.mp hb'
    exact ⟨iff_of_true (by simp [EvidenceItemSerializerV2.validate, hb']) he,
      iff_of_false (by simp [EvidenceItemSerializerV2.validate, hb']) (not_not_intro he)⟩

/-- C6: `BadgeClassSerializerV2.update` removes any issuer reference from the payload
before applying the update, so the owning issuer after the update equals the owning
issuer before, even when the payload names a different issuer; all other payload
fields are applied normally. -/
theorem C6_badgeclass_update_preserves_issuer (inst : BadgeClassRecord)
    (vd : BadgeClassUpdateData) :
    (BadgeClassSerializerV2.update inst vd).issuer = inst.issuer ∧
    (BadgeClassSerializerV2.update inst vd).name = vd.name.getD inst.name ∧
    (BadgeClassSerializerV2.update inst vd).description =
      vd.description.getD inst.description ∧
    (BadgeClassSerializerV2.update inst vd).image = vd.image.getD inst.image ∧
    (BadgeClassSerializerV2.update inst vd).criteria_url =
      vd.criteria_url.getD inst.criteria_url ∧
    (BadgeClassSerializerV2.update inst vd).criteria_text =
      vd.criteria_text.getD inst.criteria_text ∧
    (BadgeClassSerializerV2.update inst vd).tag_items = vd.tag_items.getD inst.tag_items :=
  ⟨rfl, rfl, rfl, rfl, rfl, rfl, rfl⟩

/-- C7: on accepting an uploaded image, `IssuerSerializerV2.validate_image` renames it
to a fresh UUID-based filename preserving the original extension: for every non-None
image whose name has extension ".png", after validation there is a string v (the
fresh uuid4) such that the image's name equals "issuer_logo_" ++ v ++ ".png"; a None
image is returned unchanged. -/
theorem C7_image_renamed_to_uuid (u : String) (img : UploadedImage) (base : String)
    (h : splitext img.name = (base, ".png")) :
    (∃ v : String, IssuerSerializerV2.validate_image u (some img) =
      some { name := "issuer_logo_" ++ v ++ ".png" }) ∧
    IssuerSerializerV2.validate_image u none = none := by
  refine ⟨⟨u, ?_⟩, rfl⟩
  simp [IssuerSerializerV2.validate_image, h]

/-- Witness for C7: an image named "photo.png" is renamed to
"issuer_logo_&lt;uuid&gt;.png". -/
theorem C7_image_renamed_to_uuid_witness :
    (∃ v : String, IssuerSerializerV2.validate_image "3f2b8c1e-0000-4000-8000-1a2b3c4d5e6f"
      (some { name := "photo.png" }) = some { name := "issuer_logo_" ++ v ++ ".png" }) ∧
    IssuerSerializerV2.validate_image "3f2b8c1e-0000-4000-8000-1a2b3c4d5e6f" none = none :=
  C7_image_renamed_to_uuid "3f2b8c1e-0000-4000-8000-1a2b3c4d5e6f" { name := "photo.png" }
    "photo" (by decide)

/-- C8: the migration's `run_data` assigns a freshly generated placeholder domain to
the `manifest_domain` field of every existing ApplicationInfo row; no other field is
modified, and the reverse operation is a no-op. -/
theorem C8_migration_rewrites_only_manifest_domain (gen : Nat → String)
    (rows : List ApplicationInfo) :
    (run_data gen 0 rows).map ApplicationInfo.otherFields =
      rows.map ApplicationInfo.otherFields ∧
    (run_data gen 0 rows).map ApplicationInfo.manifest_domain =
      (List.range rows.length).map gen ∧
    RunPython.noop rows = rows := by
  refine ⟨run_data_map_otherFields gen 0 rows, ?_, rfl⟩
  rw [run_data_map_manifest_domain, List.range_eq_range']

/-- C9: although the staff field is declared optional, `IssuerSerializerV2.create`
unconditionally pops `staff_items`, so a creation call whose validated data has no
staff entry raises a KeyError rather than succeeding or raising a structured
validation error. -/
theorem C9_issuer_create_keyerror_without_staff (vd : IssuerValidatedData)
    (h : vd.staff_items = none) :
    IssuerSerializerV2.create vd = .error (.keyError "staff_items") ∧
    (∀ r, IssuerSerializerV2.create vd ≠ .ok r) ∧
    (∀ f m, IssuerSerializerV2.create vd ≠ .error (.validationError f m)) := by
  unfold IssuerSerializerV2.create
  rw [h]
  exact ⟨rfl, fun r hr => by simp at hr, fun f m hr => by simp at hr⟩

/-- Witness for C9: a concrete creation payload with no staff entry yields the
KeyError. -/
theorem C9_issuer_create_keyerror_without_staff_witness :
    IssuerSerializerV2.create
      { name := "Issuer", image := none, email := "a@example.com",
        url := "http://example.com", description := "d", staff_items := none } =
      .error (.keyError "staff_items") :=
  (C9_issuer_create_keyerror_without_staff
    { name := "Issuer", image := none, email := "a@example.com",
      url := "http://example.com", description := "d", staff_items := none } rfl).1

/-- C10: the recipient type field is optional and defaults to the email type, so for
every recipient payload that omits the type, validation checks the identity against
the email format validator and rejects exactly the identifiers that fail it. -/
theorem C10_recipient_type_defaults_to_email (V : FormatValidators) (p : RecipientPayload)
    (h : p.type = none) :
    (BadgeRecipientSerializerV2.to_internal_value p).recipient_type =
      some RecipientType.email ∧
    (∀ msg, BadgeRecipientSerializerV2.run_validation V p = .error msg ↔
      V.email p.identity = some msg) ∧
    (BadgeRecipientSerializerV2.run_validation V p =
        .ok (BadgeRecipientSerializerV2.to_internal_value p) ↔
      V.email p.identity = none) := by
  have htype : (BadgeRecipientSerializerV2.to_internal_value p).recipient_type =
      some RecipientType.email := by
    simp [BadgeRecipientSerializerV2.to_internal_value, h]
  refine ⟨htype, fun msg => ?_, ?_⟩
  · exact recipient_validate_error_iff V _ RecipientType.email htype msg
  · exact recipient_validate_ok_iff V _ RecipientType.email htype

/-- Witness for C10: a payload omitting the type with an identifier that is not a
valid email is rejected with the email validator's message. -/
theorem C10_recipient_type_defaults_to_email_witness :
    BadgeRecipientSerializerV2.run_validation demoValidators
      { identity := "not-an-email", type := none } =
      Except.error "Enter a valid email address." :=
  ((C10_recipient_type_defaults_to_email demoValidators
      { identity := "not-an-email", type := none } rfl).2.1
    "Enter a valid email address.").mpr (by decide)

end Badgr
